import Mathlib

/-!
Verification of the voicejournal app-icon scripts
(`app-icon/create_icon.py` and `app-icon/create_icon_from_source.py`).

The scripts are shallowly embedded as pure Lean functions:

* An image buffer's content is a symbolic expression tree `Content` recording
  exactly the PIL operations the Python code performs (new image, in-place
  draw sequences, `paste` with mask, `alpha_composite`, Gaussian blur, copy,
  `resize`).  Pixel rasterisation itself is not modelled; the tree keeps every
  parameter the code passes, so structural facts (dimensions, which draw
  operations end up in the saved image, which layer feeds which compositing
  step) are faithful to the source.
* Python float arithmetic on the hardcoded constants is embedded as exact
  rational arithmetic (`ℚ`); Python's `int(...)` truncation-toward-zero is
  `pyInt`.
* Effects (directory creation, file writes, printed lines) are an event trace
  `List Ev`.  `Image.open` results and per-size resize/save exceptions of the
  resizer are inputs (`openF`, `fails`), since they come from the outside
  world.

A crucial aliasing point of `create_icon.py` is modelled explicitly: the
`ImageDraw.Draw(icon)` handle created on line 10 keeps pointing at the
original buffer object, while the name `icon` is re-bound to fresh objects by
`Image.alpha_composite` on lines 71, 137 and 138.  The notebook-line draws of
lines 144–147 therefore mutate the original (stale) buffer, not the image
that line 150 saves.  `savedIcon` is the saved composite; `staleIconBuffer`
is the final content of the buffer the stale handle points at.
-/

/-- Python `int(...)` on a real value: truncation toward zero. -/
def pyInt (q : ℚ) : Int := if 0 ≤ q then ⌊q⌋ else -⌊-q⌋

/-- An RGBA colour as the 4-tuples passed to PIL fills. -/
structure Color where
  r : Int
  g : Int
  b : Int
  a : Int
deriving DecidableEq

/-- A fill value: an RGBA tuple for "RGBA" images, a single level for "L" masks. -/
inductive Fill where
  | rgba : Color → Fill
  | gray : Int → Fill
deriving DecidableEq

/-- Resampling filters used by the scripts (PIL `Image.LANCZOS`). -/
inductive PilFilter where
  | lanczos
deriving DecidableEq

/-- One in-place drawing operation on an `ImageDraw` handle, with the exact
parameters the code passes (`width none` when the call omits it). -/
inductive DrawOp where
  | roundedRect (x0 y0 x1 y1 radius : ℚ) (fill : Fill)
  | line (x0 y0 x1 y1 : ℚ) (fill : Fill) (width : Option Int)
deriving DecidableEq

/-- Symbolic content of a PIL image buffer. -/
inductive Content where
  | newImage (mode : String) (w h : Nat) (fill : Fill)
  | draws (base : Content) (ops : List DrawOp)
  | paste (base src : Content) (x y : Int) (mask : Content)
  | alphaComposite (lower upper : Content)
  | gaussianBlur (c : Content) (radius : Nat)
  | copyOf (c : Content)
  | resize (c : Content) (w h : Nat) (filt : PilFilter) (box : Option (ℚ × ℚ × ℚ × ℚ))
deriving DecidableEq

/-- Width in pixels of a buffer (PIL invariant: draws, pastes and compositing
keep the base image's size; `resize` has the requested size). -/
def Content.width : Content → Nat
  | .newImage _ w _ _ => w
  | .draws c _ => c.width
  | .paste c _ _ _ _ => c.width
  | .alphaComposite c _ => c.width
  | .gaussianBlur c _ => c.width
  | .copyOf c => c.width
  | .resize _ w _ _ _ => w

/-- Height in pixels of a buffer. -/
def Content.height : Content → Nat
  | .newImage _ _ h _ => h
  | .draws c _ => c.height
  | .paste c _ _ _ _ => c.height
  | .alphaComposite c _ => c.height
  | .gaussianBlur c _ => c.height
  | .copyOf c => c.height
  | .resize _ _ h _ _ => h

/-- Every draw operation occurring anywhere in a content tree, in layer order. -/
def Content.allOps : Content → List DrawOp
  | .newImage _ _ _ _ => []
  | .draws c l => c.allOps ++ l
  | .paste b s _ _ m => b.allOps ++ s.allOps ++ m.allOps
  | .alphaComposite a b => a.allOps ++ b.allOps
  | .gaussianBlur c _ => c.allOps
  | .copyOf c => c.allOps
  | .resize c _ _ _ _ => c.allOps

/-- The fill of a draw operation. -/
def DrawOp.fillOf : DrawOp → Fill
  | .roundedRect _ _ _ _ _ f => f
  | .line _ _ _ _ f _ => f

/-- The alpha component of an operation's fill (`none` for mask levels). -/
def DrawOp.alphaOf (op : DrawOp) : Option Int :=
  match op.fillOf with
  | .rgba c => some c.a
  | .gray _ => none

/-- The rectangle `(x0, y0, x1, y1)` of a draw operation. -/
def DrawOp.rectOf : DrawOp → ℚ × ℚ × ℚ × ℚ
  | .roundedRect x0 y0 x1 y1 _ _ => (x0, y0, x1, y1)
  | .line x0 y0 x1 y1 _ _ => (x0, y0, x1, y1)

/-- An observable effect of a run: directory creation, a file write (target
directory, file name, image content), or a printed line. -/
inductive Ev where
  | mkdir (dir : String)
  | write (dir name : String) (img : Content)
  | msg (text : String)
deriving DecidableEq

/-- `True` exactly on `mkdir` events. -/
def Ev.isMkdir : Ev → Bool
  | .mkdir _ => true
  | _ => false

/-- `True` exactly on `write` events. -/
def Ev.isWrite : Ev → Bool
  | .write _ _ _ => true
  | _ => false

/-- The file writes of a trace, as `(file name, image content)` pairs. -/
def writesOf (t : List Ev) : List (String × Content) :=
  t.filterMap fun e =>
    match e with
    | .write _ n c => some (n, c)
    | _ => none

/-- The iOS icon size list hardcoded in both scripts. -/
def sizes : List Nat := [1024, 180, 167, 152, 120, 87, 80, 76, 60, 58, 40, 29, 20]

/-- `f"icon_{size}.png"`. -/
def iconName (s : Nat) : String := "icon_" ++ toString s ++ ".png"

/-! ## `create_icon.py`: `create_voicejournal_icon` (lines 7–151) -/

/-- Colour of gradient row `y` (lines 26–28): `int(41 + (33-41)*y/size)` etc.,
alpha 255. -/
def gradColor (size y : Nat) : Color :=
  { r := pyInt (41 + (33 - 41) * (y : ℚ) / (size : ℚ))
    g := pyInt (128 + (76 - 128) * (y : ℚ) / (size : ℚ))
    b := pyInt (185 + (156 - 185) * (y : ℚ) / (size : ℚ))
    a := 255 }

/-- The per-row line draws of the background gradient (lines 24–29). -/
def gradientOps (size : Nat) : List DrawOp :=
  (List.range size).map fun (y : Nat) =>
    .line 0 (y : ℚ) (size : ℚ) (y : ℚ) (.rgba (gradColor size y)) none

/-- The background-gradient buffer (lines 20–29). -/
def gradientImg (size : Nat) : Content :=
  .draws (.newImage "RGBA" size size (.rgba ⟨0, 0, 0, 0⟩)) (gradientOps size)

/-- `corner_radius = size // 5` (line 16). -/
def corner_radius (size : Nat) : Nat := size / 5

/-- The rounded-corner mask buffer (lines 14–17). -/
def maskImg (size : Nat) : Content :=
  .draws (.newImage "L" size size (.gray 0))
    [.roundedRect 0 0 (size : ℚ) (size : ℚ) ((corner_radius size : ℚ)) (.gray 255)]

/-- `page_width = size * 0.7` (line 35). -/
def page_width (size : Nat) : ℚ := (size : ℚ) * (7 / 10)

/-- `page_height = size * 0.8` (line 36). -/
def page_height (size : Nat) : ℚ := (size : ℚ) * (8 / 10)

/-- `page_x = (size - page_width) / 2` (line 37). -/
def page_x (size : Nat) : ℚ := ((size : ℚ) - page_width size) / 2

/-- `page_y = (size - page_height) / 2` (line 38). -/
def page_y (size : Nat) : ℚ := ((size : ℚ) - page_height size) / 2

/-- `page_corner_radius = size // 20` (line 43). -/
def page_corner_radius (size : Nat) : Nat := size / 20

/-- The page mask buffer (lines 41–45). -/
def pageMask (size : Nat) : Content :=
  .draws (.newImage "L" size size (.gray 0))
    [.roundedRect (page_x size) (page_y size) (page_x size + page_width size)
      (page_y size + page_height size) ((page_corner_radius size : ℚ)) (.gray 255)]

/-- Colour of page-gradient row `y` (lines 53–57). -/
def pageColor (size : Nat) (y : Int) : Color :=
  let progress : ℚ := ((y : ℚ) - page_y size) / page_height size
  { r := pyInt (255 - 10 * progress)
    g := pyInt (255 - 5 * progress)
    b := pyInt 255
    a := 255 }

/-- The integer rows `range(int(page_y), int(page_y + page_height))` of the
page gradient loop (line 52). -/
def pageYs (size : Nat) : List Int :=
  (List.range (pyInt (page_y size + page_height size) - pyInt (page_y size)).toNat).map
    fun k => pyInt (page_y size) + (k : Int)

/-- The per-row line draws of the page gradient (lines 52–58). -/
def pageOps (size : Nat) : List DrawOp :=
  (pageYs size).map fun (y : Int) =>
    .line (page_x size) (y : ℚ) (page_x size + page_width size) (y : ℚ)
      (.rgba (pageColor size y)) none

/-- The page buffer (lines 48–58). -/
def pageImg (size : Nat) : Content :=
  .draws (.newImage "RGBA" size size (.rgba ⟨0, 0, 0, 0⟩)) (pageOps size)

/-- `shadow_offset = size // 50` (line 63). -/
def shadow_offset (size : Nat) : Nat := size / 50

/-- The blurred drop-shadow buffer (lines 61–68). -/
def shadowImg (size : Nat) : Content :=
  .gaussianBlur
    (.draws (.newImage "RGBA" size size (.rgba ⟨0, 0, 0, 0⟩))
      [.roundedRect (page_x size + (shadow_offset size : ℚ))
        (page_y size + (shadow_offset size : ℚ))
        (page_x size + page_width size + (shadow_offset size : ℚ))
        (page_y size + page_height size + (shadow_offset size : ℚ))
        ((page_corner_radius size : ℚ)) (.rgba ⟨0, 0, 0, 50⟩)])
    (size / 100)

/-- `wave_height = page_height * 0.5` (line 77). -/
def wave_height (size : Nat) : ℚ := page_height size * (5 / 10)

/-- `wave_width = page_width * 0.7` (line 78). -/
def wave_width (size : Nat) : ℚ := page_width size * (7 / 10)

/-- `wave_x = (size - wave_width) / 2` (line 79). -/
def wave_x (size : Nat) : ℚ := ((size : ℚ) - wave_width size) / 2

/-- `wave_y = (size - wave_height) / 2 + size * 0.05` (line 80). -/
def wave_y (size : Nat) : ℚ := ((size : ℚ) - wave_height size) / 2 + (size : ℚ) * (5 / 100)

/-- `num_lines = 7` (line 83). -/
def num_lines : Nat := 7

/-- `line_spacing = wave_width / (num_lines - 1)` (line 84). -/
def line_spacing (size : Nat) : ℚ := wave_width size / ((num_lines : ℚ) - 1)

/-- `max_amplitude = wave_height * 0.25` (line 85). -/
def max_amplitude (size : Nat) : ℚ := wave_height size * (25 / 100)

/-- `distance_from_center = abs(i - (num_lines-1)/2) / ((num_lines-1)/2)` (line 91). -/
def distance_from_center (i : Nat) : ℚ :=
  |(i : ℚ) - ((num_lines : ℚ) - 1) / 2| / (((num_lines : ℚ) - 1) / 2)

/-- `amplitude = max_amplitude * (1 - 0.8 * distance_from_center**2)` (line 93). -/
def amplitude (size i : Nat) : ℚ :=
  max_amplitude size * (1 - (8 / 10) * (distance_from_center i) ^ 2)

/-- `center_factor = 1 - abs(i - (num_lines-1)/2) / ((num_lines-1)/2)` (line 105). -/
def center_factor (i : Nat) : ℚ := 1 - distance_from_center i

/-- The bar colour (lines 108–110), alpha 240 from the fill on line 119. -/
def waveColor (i : Nat) : Color :=
  { r := pyInt (89 + (41 - 89) * center_factor i)
    g := pyInt (65 + (128 - 65) * center_factor i)
    b := pyInt (169 + (185 - 169) * center_factor i)
    a := 240 }

/-- `line_width = max(2, int(size * 0.015 * (0.5 + 0.5 * center_factor)))` (line 112). -/
def wave_line_width (size i : Nat) : Int :=
  max 2 (pyInt ((size : ℚ) * (15 / 1000) * ((5 / 10) + (5 / 10) * center_factor i)))

/-- The rounded-rectangle draw of sound-wave bar `i` (lines 100–120). -/
def barOp (size i : Nat) : DrawOp :=
  let x : ℚ := wave_x size + (i : ℚ) * line_spacing size
  let lw : ℚ := (wave_line_width size i : ℚ)
  .roundedRect (x - lw / 2) (wave_y size + wave_height size / 2 - amplitude size i)
    (x + lw / 2) (wave_y size + wave_height size / 2 + amplitude size i)
    (lw / 2) (.rgba (waveColor i))

/-- The sound-wave overlay buffer (lines 97–120). -/
def waveOverlay (size : Nat) : Content :=
  .draws (.newImage "RGBA" size size (.rgba ⟨0, 0, 0, 0⟩))
    ((List.range num_lines).map (barOp size))

/-- The blurred glow copy of the wave (lines 123–124). -/
def glowImg (size : Nat) : Content :=
  .gaussianBlur (.copyOf (waveOverlay size)) (size / 50)

/-- The wave-clipping mask (lines 127–130), same rectangle as the page mask. -/
def waveMask (size : Nat) : Content :=
  .draws (.newImage "L" size size (.gray 0))
    [.roundedRect (page_x size) (page_y size) (page_x size + page_width size)
      (page_y size + page_height size) ((page_corner_radius size : ℚ)) (.gray 255)]

/-- `glow_masked` (lines 133–134): the glow pasted onto a fresh transparent
image through the wave mask. -/
def glowMasked (size : Nat) : Content :=
  .paste (.newImage "RGBA" size size (.rgba ⟨0, 0, 0, 0⟩)) (glowImg size) 0 0 (waveMask size)

/-- The original buffer created on line 9. -/
def icon0 (size : Nat) : Content := .newImage "RGBA" size size (.rgba ⟨255, 255, 255, 0⟩)

/-- The original buffer after the in-place gradient paste of line 32. -/
def icon1 (size : Nat) : Content := .paste (icon0 size) (gradientImg size) 0 0 (maskImg size)

/-- `icon = Image.alpha_composite(icon, shadow)` (line 71): a fresh object. -/
def icon2 (size : Nat) : Content := .alphaComposite (icon1 size) (shadowImg size)

/-- The fresh object after the in-place page paste of line 74. -/
def icon3 (size : Nat) : Content := .paste (icon2 size) (pageImg size) 0 0 (pageMask size)

/-- `icon = Image.alpha_composite(icon, glow_masked)` (line 137). -/
def icon4 (size : Nat) : Content := .alphaComposite (icon3 size) (glowMasked size)

/-- The image object the name `icon` refers to at line 150's `icon.save`:
`Image.alpha_composite(icon, wave_overlay)` (line 138). -/
def savedIcon (size : Nat) : Content := .alphaComposite (icon4 size) (waveOverlay size)

/-- Notebook-line colour `(200, 210, 230, 100)` (line 142). -/
def notebookColor : Color := ⟨200, 210, 230, 100⟩

/-- The `line_spacing = page_height / 8` rebinding of line 141. -/
def notebook_line_spacing (size : Nat) : ℚ := page_height size / 8

/-- `max(1, int(size * 0.002))` (line 147). -/
def notebook_line_width (size : Nat) : Int := max 1 (pyInt ((size : ℚ) * (2 / 1000)))

/-- The notebook-line draw for index `i` (lines 144–147). -/
def notebookOp (size i : Nat) : DrawOp :=
  let ypos : ℚ := page_y size + (i : ℚ) * notebook_line_spacing size
  .line (page_x size + page_width size * (1 / 10)) ypos
    (page_x size + page_width size * (9 / 10)) ypos
    (.rgba notebookColor) (some (notebook_line_width size))

/-- The draws issued by the `for i in range(1, 8)` loop of lines 144–147. -/
def notebookOps (size : Nat) : List DrawOp :=
  (List.range' 1 7).map (notebookOp size)

/-- Final content of the buffer the `ImageDraw.Draw(icon)` handle of line 10
points at: the original object of line 9, mutated by the paste of line 32 and
by the notebook-line draws of lines 144–147.  This buffer is never saved and
no longer feeds the composite after line 71 snapshots it. -/
def staleIconBuffer (size : Nat) : Content := .draws (icon1 size) (notebookOps size)

/-- `create_voicejournal_icon(save_path, size)` (lines 7–151): returns the
icon it saves, and its effect trace.  The save path is modelled as the
`(directory, file name)` pair its callers join with `os.path.join`. -/
def create_voicejournal_icon (save_dir save_name : String) (size : Nat) :
    Content × List Ev :=
  (savedIcon size, [Ev.write save_dir save_name (savedIcon size)])

/-- `create_ios_icon_set(base_path)` (lines 154–170): renders the 1024 base,
then saves each other size as a Lanczos resize of the base (no `box`
argument, so the whole base image is used).  Result: the effect trace. -/
def create_ios_icon_set (base_path : String) : List Ev :=
  let base := create_voicejournal_icon base_path (iconName 1024) 1024
  base.2 ++
    sizes.flatMap fun s =>
      if s = 1024 then []
      else [Ev.write base_path (iconName s) (.resize base.1 s s .lanczos none)]

/-! ## `create_icon_from_source.py`: `resize_icon` (lines 8–29) -/

/-- The loop body for one target size (lines 22–29): `fails s = some e`
models the resize-or-save raising exception `e`; `none` models success. -/
def sizeStep (img : Content) (output_dir : String) (fails : Nat → Option String)
    (s : Nat) : List Ev :=
  match fails s with
  | some e =>
      [Ev.msg ("Error creating " ++ toString s ++ "x" ++ toString s ++ " icon: " ++ e)]
  | none =>
      [Ev.write output_dir (iconName s) (.resize img s s .lanczos none),
       Ev.msg ("Created icon " ++ toString s ++ "x" ++ toString s ++ "px: "
         ++ output_dir ++ "/" ++ iconName s)]

/-- `resize_icon(source_image_path, output_dir)` (lines 8–29).  `openF` gives
the outcome of `Image.open` per path; on error the function prints and
returns (zero writes).  On success it creates the output directory
(`os.makedirs(..., exist_ok=True)`, line 18) and runs the per-size loop. -/
def resize_icon (openF : String → Except String Content)
    (source_image_path output_dir : String) (fails : Nat → Option String) : List Ev :=
  match openF source_image_path with
  | .error e => [Ev.msg ("Error opening source image: " ++ e)]
  | .ok img =>
      Ev.msg ("Opened source image: " ++ source_image_path) ::
      Ev.mkdir output_dir ::
      sizes.flatMap (sizeStep img output_dir fails)

/-! ## Derived observables and concrete fixtures used by the theorems -/

/-- The predicate "this operation's fill is RGBA with alpha component `a`". -/
def alphaIs (a : Int) (op : DrawOp) : Bool := op.alphaOf == some a

/-- Number of draw operations anywhere in `c` whose fill has alpha `a`.
Alpha 100 occurs in this program only in the notebook-line colour. -/
def alphaCount (c : Content) (a : Int) : Nat := c.allOps.countP (alphaIs a)

/-- Half the vertical extent of the rounded rectangle drawn for sound-wave
bar `i`: `(y1 - y0) / 2`. -/
def barHalfHeight (size i : Nat) : ℚ :=
  ((barOp size i).rectOf.2.2.2 - (barOp size i).rectOf.2.1) / 2

/-- A concrete non-square source image (640×480). -/
def srcImg : Content := .newImage "RGBA" 640 480 (.rgba ⟨10, 20, 30, 255⟩)

/-- A concrete already-square source image (180×180). -/
def sqImg : Content := .newImage "RGBA" 180 180 (.rgba ⟨10, 20, 30, 255⟩)

/-- An `Image.open` behaviour that succeeds with `srcImg` on every path. -/
def okOpen : String → Except String Content := fun _ => .ok srcImg

/-- An `Image.open` behaviour that succeeds with `sqImg` on every path. -/
def okOpenSq : String → Except String Content := fun _ => .ok sqImg

/-- An `Image.open` behaviour that always fails. -/
def badOpen : String → Except String Content := fun _ => .error "No such file or directory"

/-- A per-size failure behaviour: the 120px resize raises, the rest succeed. -/
def failsAt120 : Nat → Option String := fun s => if s = 120 then some "disk full" else none

/-- A second failure behaviour agreeing with `failsAt120` at 120 only. -/
def failsElse : Nat → Option String :=
  fun s => if s = 120 then some "disk full" else some "skipped"

/-! ## Component lemmas: which fill alphas occur in each rendered layer -/

theorem countP_gradientOps (size : Nat) :
    (gradientOps size).countP (alphaIs 100) = 0 := by
  rw [List.countP_eq_zero]
  intro op hop
  simp only [gradientOps, List.mem_map] at hop
  obtain ⟨y, _, rfl⟩ := hop
  simp [alphaIs, DrawOp.alphaOf, DrawOp.fillOf, gradColor]

theorem countP_pageOps (size : Nat) :
    (pageOps size).countP (alphaIs 100) = 0 := by
  rw [List.countP_eq_zero]
  intro op hop
  simp only [pageOps, List.mem_map] at hop
  obtain ⟨y, _, rfl⟩ := hop
  simp [alphaIs, DrawOp.alphaOf, DrawOp.fillOf, pageColor]

theorem countP_waveOps (size : Nat) :
    ((List.range num_lines).map (barOp size)).countP (alphaIs 100) = 0 := by
  rw [List.countP_eq_zero]
  intro op hop
  simp only [List.mem_map] at hop
  obtain ⟨i, _, rfl⟩ := hop
  simp [alphaIs, DrawOp.alphaOf, DrawOp.fillOf, barOp, waveColor]

theorem alphaCount_savedIcon (size : Nat) : alphaCount (savedIcon size) 100 = 0 := by
  simp only [alphaCount, savedIcon, icon4, icon3, icon2, icon1, icon0, glowMasked,
    glowImg, waveMask, shadowImg, pageImg, pageMask, maskImg, gradientImg, waveOverlay,
    Content.allOps, List.countP_append, List.nil_append, List.append_nil,
    countP_gradientOps, countP_pageOps, countP_waveOps, List.countP_cons, List.countP_nil,
    alphaIs, DrawOp.alphaOf, DrawOp.fillOf]
  norm_num

/-- C2 (code bug): the notebook lines are drawn through the `ImageDraw` handle
of line 10, which still points at the original buffer after `icon` was
re-bound by `alpha_composite` (lines 71/137/138).  The image saved on line 150
therefore contains no draw operation with the notebook-line alpha 100, while
the stale, never-saved buffer contains exactly the seven notebook-line draws
with fill `(200, 210, 230, 100)`. -/
theorem notebook_lines_missing_from_saved_icon (size : Nat) :
    alphaCount (savedIcon size) 100 = 0 ∧
    alphaCount (staleIconBuffer size) 100 = 7 ∧
    (notebookOps size).length = 7 ∧
    (notebookOps size).all (fun op => op.fillOf == .rgba notebookColor) = true := by
  have h7 : (notebookOps size).countP (alphaIs 100) = 7 := by
    have hall : ∀ op ∈ notebookOps size, alphaIs 100 op := by
      intro op hop
      simp only [notebookOps, List.mem_map] at hop
      obtain ⟨i, _, rfl⟩ := hop
      rfl
    calc (notebookOps size).countP (alphaIs 100)
        = (notebookOps size).length := List.countP_eq_length.mpr hall
      _ = 7 := rfl
  refine ⟨alphaCount_savedIcon size, ?_, rfl, ?_⟩
  · simp only [alphaCount, staleIconBuffer, icon1, icon0, gradientImg, maskImg,
      Content.allOps, List.countP_append, List.nil_append, countP_gradientOps,
      List.countP_cons, List.countP_nil, h7]
    norm_num [alphaIs, DrawOp.alphaOf, DrawOp.fillOf]
  · rw [List.all_eq_true]
    intro op hop
    simp only [notebookOps, List.mem_map] at hop
    obtain ⟨i, _, rfl⟩ := hop
    rfl

/-- C3: the renderer is deterministic.  The image returned (and saved) by
`create_voicejournal_icon` is a function of `size` alone — independent of the
save path — and the named file contents written by `create_ios_icon_set` are
the same in any two invocations, whatever their base paths. -/
theorem renderer_deterministic :
    (∀ d₁ n₁ d₂ n₂ size, (create_voicejournal_icon d₁ n₁ size).1 =
      (create_voicejournal_icon d₂ n₂ size).1) ∧
    ∀ b₁ b₂, writesOf (create_ios_icon_set b₁) = writesOf (create_ios_icon_set b₂) := by
  exact ⟨fun _ _ _ _ _ => rfl, fun b₁ b₂ => rfl⟩

/-- C4: when `Image.open` fails, `resize_icon` prints the error and returns:
its whole trace is the single error message, so it performs zero file writes
and no exception escapes (the embedding is a total function whose error
branch is the caught-and-printed path of lines 13–15). -/
theorem resize_icon_open_failure (openF : String → Except String Content)
    (sp dir : String) (fails : Nat → Option String) (e : String)
    (hopen : openF sp = .error e) :
    resize_icon openF sp dir fails = [Ev.msg ("Error opening source image: " ++ e)] ∧
    writesOf (resize_icon openF sp dir fails) = [] := by
  rw [resize_icon, hopen]
  exact ⟨rfl, rfl⟩

/-- Witness for C4 at a concrete unopenable path. -/
theorem resize_icon_open_failure_witness :
    badOpen "/missing.png" = .error "No such file or directory" ∧
    (resize_icon badOpen "/missing.png" "out" (fun _ => none) =
      [Ev.msg ("Error opening source image: " ++ "No such file or directory")] ∧
     writesOf (resize_icon badOpen "/missing.png" "out" (fun _ => none)) = []) :=
  ⟨rfl, resize_icon_open_failure badOpen "/missing.png" "out" (fun _ => none)
    "No such file or directory" rfl⟩

/-- C1: for every size in the fixed list, a successful run of either utility
writes exactly one file named `icon_<size>.png`, and the image written under
that name has width and height equal to the size.  For the resizer,
"successful" means the source opened and no per-size operation raised
(`fun _ => none`). -/
theorem every_size_written_once_with_matching_dims (b : String)
    (openF : String → Except String Content) (sp dir : String) (img : Content)
    (hopen : openF sp = .ok img) (s : Nat) (hs : s ∈ sizes) :
    (((writesOf (create_ios_icon_set b)).map Prod.fst).count (iconName s) = 1 ∧
     ((writesOf (create_ios_icon_set b)).lookup (iconName s)).map Content.width = some s ∧
     ((writesOf (create_ios_icon_set b)).lookup (iconName s)).map Content.height = some s) ∧
    (((writesOf (resize_icon openF sp dir fun _ => none)).map Prod.fst).count (iconName s)
        = 1 ∧
     ((writesOf (resize_icon openF sp dir fun _ => none)).lookup (iconName s)).map
        Content.width = some s ∧
     ((writesOf (resize_icon openF sp dir fun _ => none)).lookup (iconName s)).map
        Content.height = some s) := by
  rw [resize_icon, hopen]
  fin_cases hs <;> exact ⟨⟨rfl, rfl, rfl⟩, rfl, rfl, rfl⟩

/-- Witness for C1 at size 180 with a concrete readable source image. -/
theorem every_size_written_once_with_matching_dims_witness :
    okOpen "src.png" = .ok srcImg ∧ 180 ∈ sizes ∧
    ((((writesOf (create_ios_icon_set "out")).map Prod.fst).count (iconName 180) = 1 ∧
     ((writesOf (create_ios_icon_set "out")).lookup (iconName 180)).map Content.width
        = some 180 ∧
     ((writesOf (create_ios_icon_set "out")).lookup (iconName 180)).map Content.height
        = some 180) ∧
    (((writesOf (resize_icon okOpen "src.png" "outdir" fun _ => none)).map
        Prod.fst).count (iconName 180) = 1 ∧
     ((writesOf (resize_icon okOpen "src.png" "outdir" fun _ => none)).lookup
        (iconName 180)).map Content.width = some 180 ∧
     ((writesOf (resize_icon okOpen "src.png" "outdir" fun _ => none)).lookup
        (iconName 180)).map Content.height = some 180)) :=
  ⟨rfl, by decide,
    every_size_written_once_with_matching_dims "out" okOpen "src.png" "outdir" srcImg
      rfl 180 (by decide)⟩

/-- C6: in `create_ios_icon_set` the rendered 1024 base is the image returned
by `create_voicejournal_icon`, and the file written for every size other than
1024 is exactly the Lanczos resize of that base image (full image, no `box`),
never a fresh render. -/
theorem ios_small_sizes_downsample_base (b : String) (s : Nat)
    (hs : s ∈ sizes) (hne : s ≠ 1024) :
    (create_voicejournal_icon b (iconName 1024) 1024).1 = savedIcon 1024 ∧
    (writesOf (create_ios_icon_set b)).lookup (iconName s) =
      some (Content.resize (savedIcon 1024) s s .lanczos none) := by
  fin_cases hs
  · exact absurd rfl hne
  all_goals exact ⟨rfl, rfl⟩

/-- Witness for C6 at size 180. -/
theorem ios_small_sizes_downsample_base_witness :
    180 ∈ sizes ∧ 180 ≠ 1024 ∧
    ((create_voicejournal_icon "out" (iconName 1024) 1024).1 = savedIcon 1024 ∧
     (writesOf (create_ios_icon_set "out")).lookup (iconName 180) =
       some (Content.resize (savedIcon 1024) 180 180 .lanczos none)) :=
  ⟨by decide, by decide, ios_small_sizes_downsample_base "out" 180 (by decide) (by decide)⟩

/-- Counterexample to C7 as stated: the renderer `create_ios_icon_set` issues
thirteen file writes but never a directory creation, so a missing output
directory is not created by it. -/
theorem renderer_mkdir_counterexample :
    (create_ios_icon_set "out").filter Ev.isMkdir = [] ∧
    ((create_ios_icon_set "out").filter Ev.isWrite).length = 13 :=
  ⟨rfl, rfl⟩

/-- C7 (amended): only the resizer creates the output directory — it does so
(`os.makedirs(..., exist_ok=True)`, line 18) before any of its file writes —
while the renderer performs no directory creation at all. -/
theorem resizer_creates_directory_before_writes (openF : String → Except String Content)
    (sp dir : String) (fails : Nat → Option String) (img : Content)
    (hopen : openF sp = .ok img) :
    (∃ pre post, resize_icon openF sp dir fails = pre ++ Ev.mkdir dir :: post ∧
      ∀ e ∈ pre, e.isWrite = false) ∧
    ∀ b, (create_ios_icon_set b).filter Ev.isMkdir = [] := by
  constructor
  · refine ⟨[Ev.msg ("Opened source image: " ++ sp)],
      sizes.flatMap (sizeStep img dir fails), ?_, ?_⟩
    · rw [resize_icon, hopen]
      rfl
    · intro e he
      simp only [List.mem_singleton] at he
      subst he
      rfl
  · intro b
    rfl

/-- Witness for C7's amended statement at concrete inputs. -/
theorem resizer_creates_directory_before_writes_witness :
    okOpen "src.png" = .ok srcImg ∧
    ((∃ pre post, resize_icon okOpen "src.png" "out" (fun _ => none) =
        pre ++ Ev.mkdir "out" :: post ∧ ∀ e ∈ pre, e.isWrite = false) ∧
     ∀ b, (create_ios_icon_set b).filter Ev.isMkdir = []) :=
  ⟨rfl, resizer_creates_directory_before_writes okOpen "src.png" "out"
    (fun _ => none) srcImg rfl⟩

/-- C5: per-size failure isolation in `resize_icon`.  The events contributed
for a size depend only on that size's own resize/save outcome (`f s`), every
outcome (the write on success, the error message naming the failing size on
failure) occurs in the run's trace whatever happens at other sizes, and every
size in the list is attempted (its contribution is never empty). -/
theorem resize_per_size_isolation (openF : String → Except String Content)
    (sp dir : String) (img : Content) (f g : Nat → Option String) (s : Nat)
    (hopen : openF sp = .ok img) (hs : s ∈ sizes) (hfg : f s = g s) :
    sizeStep img dir f s = sizeStep img dir g s ∧
    (∀ e ∈ sizeStep img dir f s, e ∈ resize_icon openF sp dir f) ∧
    (f s = none → sizeStep img dir f s =
      [Ev.write dir (iconName s) (.resize img s s .lanczos none),
       Ev.msg ("Created icon " ++ toString s ++ "x" ++ toString s ++ "px: "
         ++ dir ++ "/" ++ iconName s)]) ∧
    (∀ e, f s = some e → sizeStep img dir f s =
      [Ev.msg ("Error creating " ++ toString s ++ "x" ++ toString s ++ " icon: " ++ e)]) ∧
    sizeStep img dir f s ≠ [] := by
  refine ⟨?_, ?_, ?_, ?_, ?_⟩
  · simp only [sizeStep, hfg]
  · intro e he
    rw [resize_icon, hopen]
    exact List.mem_cons_of_mem _ (List.mem_cons_of_mem _
      (List.mem_flatMap.mpr ⟨s, hs, he⟩))
  · intro h
    simp [sizeStep, h]
  · intro e h
    simp [sizeStep, h]
  · cases hf : f s <;> simp [sizeStep, hf]

/-- Witness for C5: size 120 fails with "disk full" under two behaviours that
agree at 120 but differ elsewhere. -/
theorem resize_per_size_isolation_witness :
    okOpen "src.png" = .ok srcImg ∧ 120 ∈ sizes ∧ failsAt120 120 = failsElse 120 ∧
    (sizeStep srcImg "out" failsAt120 120 = sizeStep srcImg "out" failsElse 120 ∧
     (∀ e ∈ sizeStep srcImg "out" failsAt120 120,
        e ∈ resize_icon okOpen "src.png" "out" failsAt120) ∧
     (failsAt120 120 = none → sizeStep srcImg "out" failsAt120 120 =
        [Ev.write "out" (iconName 120) (.resize srcImg 120 120 .lanczos none),
         Ev.msg ("Created icon " ++ toString 120 ++ "x" ++ toString 120 ++ "px: "
           ++ "out" ++ "/" ++ iconName 120)]) ∧
     (∀ e, failsAt120 120 = some e → sizeStep srcImg "out" failsAt120 120 =
        [Ev.msg ("Error creating " ++ toString 120 ++ "x" ++ toString 120
          ++ " icon: " ++ e)]) ∧
     sizeStep srcImg "out" failsAt120 120 ≠ []) :=
  ⟨rfl, by decide, rfl,
    resize_per_size_isolation okOpen "src.png" "out" srcImg failsAt120 failsElse 120
      rfl (by decide) rfl⟩

/-- C8: bar `i` of the sound wave has half-height
`max_amplitude * (1 - 0.8 * d^2)` with `d = |i - 3| / 3`, and its fill is the
componentwise linear interpolation between `(89, 65, 169)` and `(41, 128, 185)`
by the centre factor `1 - d`, truncated to integers (alpha 240). -/
theorem wave_bar_quadratic_falloff_and_lerp_color (size i : Nat) (_hi : i < 7) :
    barHalfHeight size i =
      max_amplitude size * (1 - (8 / 10) * (|(i : ℚ) - 3| / 3) ^ 2) ∧
    (barOp size i).fillOf = .rgba
      { r := pyInt (89 + (41 - 89) * (1 - |(i : ℚ) - 3| / 3))
        g := pyInt (65 + (128 - 65) * (1 - |(i : ℚ) - 3| / 3))
        b := pyInt (169 + (185 - 169) * (1 - |(i : ℚ) - 3| / 3))
        a := 240 } := by
  have hd : distance_from_center i = |(i : ℚ) - 3| / 3 := by
    norm_num [distance_from_center, num_lines]
  constructor
  · simp only [barHalfHeight, barOp, DrawOp.rectOf, amplitude, hd]
    ring
  · simp only [barOp, DrawOp.fillOf, waveColor, center_factor, hd]

/-- Witness for C8 at the leftmost bar (`i = 0`, `d = 1`) of the 1024 render. -/
theorem wave_bar_quadratic_falloff_and_lerp_color_witness :
    0 < 7 ∧
    (barHalfHeight 1024 0 =
        max_amplitude 1024 * (1 - (8 / 10) * (|((0 : Nat) : ℚ) - 3| / 3) ^ 2) ∧
     (barOp 1024 0).fillOf = .rgba
       { r := pyInt (89 + (41 - 89) * (1 - |((0 : Nat) : ℚ) - 3| / 3))
         g := pyInt (65 + (128 - 65) * (1 - |((0 : Nat) : ℚ) - 3| / 3))
         b := pyInt (169 + (185 - 169) * (1 - |((0 : Nat) : ℚ) - 3| / 3))
         a := 240 }) :=
  ⟨by decide, wave_bar_quadratic_falloff_and_lerp_color 1024 0 (by decide)⟩

/-- C9: dimension idempotence of the resizer.  For a source image whose
dimensions already equal a listed target size, the file the successful run
writes for that size has exactly those dimensions again (its content is a
fresh Lanczos resample, which is why only dimensions are asserted). -/
theorem resize_idempotent_in_dims (openF : String → Except String Content)
    (sp dir : String) (img : Content) (s : Nat) (hopen : openF sp = .ok img)
    (hs : s ∈ sizes) (_hw : img.width = s) (_hh : img.height = s) :
    (writesOf (resize_icon openF sp dir fun _ => none)).lookup (iconName s) =
      some (Content.resize img s s .lanczos none) ∧
    ((writesOf (resize_icon openF sp dir fun _ => none)).lookup (iconName s)).map
      Content.width = some s ∧
    ((writesOf (resize_icon openF sp dir fun _ => none)).lookup (iconName s)).map
      Content.height = some s := by
  rw [resize_icon, hopen]
  fin_cases hs <;> exact ⟨rfl, rfl, rfl⟩

/-- Witness for C9: a 180×180 source resized at target 180. -/
theorem resize_idempotent_in_dims_witness :
    okOpenSq "sq.png" = .ok sqImg ∧ 180 ∈ sizes ∧
    sqImg.width = 180 ∧ sqImg.height = 180 ∧
    ((writesOf (resize_icon okOpenSq "sq.png" "out" fun _ => none)).lookup
        (iconName 180) = some (Content.resize sqImg 180 180 .lanczos none) ∧
     ((writesOf (resize_icon okOpenSq "sq.png" "out" fun _ => none)).lookup
        (iconName 180)).map Content.width = some 180 ∧
     ((writesOf (resize_icon okOpenSq "sq.png" "out" fun _ => none)).lookup
        (iconName 180)).map Content.height = some 180) :=
  ⟨rfl, by decide, rfl, rfl,
    resize_idempotent_in_dims okOpenSq "sq.png" "out" sqImg 180 rfl (by decide) rfl rfl⟩

/-- C10: the resizer never preserves aspect ratio.  Whatever the source
image's dimensions, the file written for each listed size is the Lanczos
resize of the whole source (the call passes no `box`, modelled `none`, so
nothing is cropped or letterboxed) stretched to exactly `size × size`. -/
theorem resize_stretches_any_source_to_square (openF : String → Except String Content)
    (sp dir : String) (img : Content) (s : Nat) (hopen : openF sp = .ok img)
    (hs : s ∈ sizes) :
    (writesOf (resize_icon openF sp dir fun _ => none)).lookup (iconName s) =
      some (Content.resize img s s .lanczos none) ∧
    ((writesOf (resize_icon openF sp dir fun _ => none)).lookup (iconName s)).map
      Content.width = some s ∧
    ((writesOf (resize_icon openF sp dir fun _ => none)).lookup (iconName s)).map
      Content.height = some s := by
  rw [resize_icon, hopen]
  fin_cases hs <;> exact ⟨rfl, rfl, rfl⟩

/-- Witness for C10: a non-square 640×480 source stretched to 120×120. -/
theorem resize_stretches_any_source_to_square_witness :
    okOpen "src.png" = .ok srcImg ∧ 120 ∈ sizes ∧ srcImg.width ≠ srcImg.height ∧
    ((writesOf (resize_icon okOpen "src.png" "out" fun _ => none)).lookup
        (iconName 120) = some (Content.resize srcImg 120 120 .lanczos none) ∧
     ((writesOf (resize_icon okOpen "src.png" "out" fun _ => none)).lookup
        (iconName 120)).map Content.width = some 120 ∧
     ((writesOf (resize_icon okOpen "src.png" "out" fun _ => none)).lookup
        (iconName 120)).map Content.height = some 120) :=
  ⟨rfl, by decide, by decide,
    resize_stretches_any_source_to_square okOpen "src.png" "out" srcImg 120
      rfl (by decide)⟩
